import Mathlib

/-!
Verification of the tabular analysis engine in
`scripts/analyze.py` (function `analyze` and the exit-code logic of `main`).

The embedding models a loaded pandas `DataFrame` as a list of typed columns.
Numeric values are exact rationals together with an explicit `nan` marker
(missing values in a float column are stored as `nan`, exactly as pandas
stores them); `object` columns hold optional strings.  Each `elif` branch of
`analyze` becomes one Lean function, and the returned Python dict becomes an
association list of JSON-like values.  The two library-defined square roots
appearing in results (`std` of `describe`, Pearson correlation) are stored
symbolically as `jsqrt`/`jdivSqrt` with rational components; a separate
real-valued denotation interprets them.
-/

namespace DataAnalyzer

/-- A pandas float64 value: an exact rational or NaN. -/
inductive PFloat where
  | num (q : ℚ)
  | nan
deriving DecidableEq

/-- A single cell as it appears in a materialised row (`to_dict` output). -/
inductive Cell where
  | cInt (z : ℤ)
  | cFloat (x : PFloat)
  | cBool (b : Bool)
  | cStr (s : String)
  | cNone
deriving DecidableEq

/-- Homogeneous column storage, one constructor per pandas dtype that can
result from loading a data file: `int64`, `float64`, `bool`, `object`.
An `int64` column cannot hold missing values (pandas would have promoted it
to `float64`); missing values in a `float64` column are `PFloat.nan`, and in
an `object` column they are `none`. -/
inductive ColData where
  | ints (xs : List ℤ)
  | floats (xs : List PFloat)
  | bools (xs : List Bool)
  | objs (xs : List (Option String))
deriving DecidableEq

/-- A named column. -/
structure Column where
  name : String
  data : ColData
deriving DecidableEq

/-- A loaded DataFrame: columns plus the shared row count. -/
structure DataFrame where
  cols : List Column
  nrows : ℕ
deriving DecidableEq

/-- Number of stored cells of a column. -/
def ColData.size : ColData → ℕ
  | .ints xs => xs.length
  | .floats xs => xs.length
  | .bools xs => xs.length
  | .objs xs => xs.length

/-- Well-formedness: every column has exactly `nrows` cells
(pandas guarantees this for any loaded frame). -/
def DataFrame.Wf (df : DataFrame) : Prop :=
  ∀ c ∈ df.cols, c.data.size = df.nrows

instance (df : DataFrame) : Decidable df.Wf := by
  unfold DataFrame.Wf; infer_instance

/-- Dtype label as printed by `str(dtype)`. -/
def ColData.dtypeLabel : ColData → String
  | .ints _ => "int64"
  | .floats _ => "float64"
  | .bools _ => "bool"
  | .objs _ => "object"

/-- Cell of a column at row `i`. -/
def Column.cellAt (c : Column) (i : ℕ) : Cell :=
  match c.data with
  | .ints xs => match xs.get? i with | some z => .cInt z | none => .cNone
  | .floats xs => match xs.get? i with | some x => .cFloat x | none => .cNone
  | .bools xs => match xs.get? i with | some b => .cBool b | none => .cNone
  | .objs xs =>
      match xs.get? i with
      | some (some s) => .cStr s
      | some none => .cNone
      | none => .cNone

/-- All cells of a column, in row order. -/
def Column.cells (c : Column) : List Cell :=
  (List.range c.data.size).map c.cellAt

/-- Number of missing values in a column (`df.isnull().sum()` per column). -/
def ColData.nullCount : ColData → ℕ
  | .ints _ => 0
  | .floats xs => (xs.filter (fun x => x = PFloat.nan)).length
  | .bools _ => 0
  | .objs xs => (xs.filter (fun s => s = none)).length

/-- Column lookup by name (`df[col]`, guarded by `col in df.columns`). -/
def DataFrame.lookupCol (df : DataFrame) (name : String) : Option Column :=
  df.cols.find? (fun c => c.name == name)

/-- The per-row float64 view of a column's data: integers and 0/1 for
booleans; the `object` case is vacuous (its callers reject `object`
columns first). -/
def Column.series (c : Column) : List PFloat :=
  match c.data with
  | .ints xs => xs.map (fun z : ℤ => PFloat.num (z : ℚ))
  | .floats xs => xs
  | .bools xs => xs.map (fun b => PFloat.num (if b then 1 else 0))
  | .objs xs => xs.map (fun _ => PFloat.nan)

/-- The per-row float64 view of a numeric-convertible column: `none` for an
`object` column (which numeric pandas methods reject or mis-handle). -/
def Column.pfSeries (c : Column) : Option (List PFloat) :=
  match c.data with
  | .objs _ => none
  | _ => some c.series

/-- Finite (non-null) numeric values of a numeric column, in row order
(`skipna=True` view used by `sum` / `mean` / `describe`). -/
def nonNanQs (xs : List PFloat) : List ℚ :=
  xs.filterMap (fun x => match x with | .num q => some q | .nan => none)

/-- Non-null numeric values of a column (empty for `object` columns, which
never reach the numeric paths that use this). -/
def Column.numQs (c : Column) : List ℚ :=
  match c.pfSeries with
  | some xs => nonNanQs xs
  | none => []

/-- JSON-like output values, mirroring what `json.dumps` is handed.
`jnan` and `jinf` are raw non-finite floats (Python `nan`, `±inf`);
`jsqrt q` stands for the
float `sqrt q` and `jdivSqrt a b` for the float `a / sqrt b` — the two
square-root-valued quantities the program emits. -/
inductive JValue where
  | jnull
  | jbool (b : Bool)
  | jint (z : ℤ)
  | jrat (q : ℚ)
  | jnan
  | jinf (neg : Bool)
  | jstr (s : String)
  | jsqrt (q : ℚ)
  | jdivSqrt (a b : ℚ)
  | jarr (xs : List JValue)
  | jobj (fields : List (String × JValue))

/-- Serialisation of one cell into the output. -/
def cellJ : Cell → JValue
  | .cInt z => .jint z
  | .cFloat (.num q) => .jrat q
  | .cFloat .nan => .jnan
  | .cBool b => .jbool b
  | .cStr s => .jstr s
  | .cNone => .jnull

/-- Row `i` as a name→value record (`to_dict(orient="records")` entry). -/
def DataFrame.recordJ (df : DataFrame) (i : ℕ) : JValue :=
  .jobj (df.cols.map (fun c => (c.name, cellJ (c.cellAt i))))

/-- Python `repr` of the list of column names, as interpolated into the
error messages (`Available: ['a', 'b']`). -/
def availStr (df : DataFrame) : String :=
  "[" ++ String.intercalate ", "
    (df.cols.map (fun c => "\x27" ++ c.name ++ "\x27")) ++ "]"

/-- Message of the `Column '...' not found` validation error. -/
def colNotFoundMsg (col : String) (df : DataFrame) : String :=
  "Column \x27" ++ col ++ "\x27 not found. Available: " ++ availStr df

/-- Display text of an optional parameter, as interpolated by an f-string
(`None` when absent). -/
def optName : Option String → String
  | none => "None"
  | some s => s

/-- Distinct elements of `l` not yet seen, in first-encountered order — the
hash-set walk behind `Series.unique` / `drop duplicates`, under which `NaN`
compares equal to `NaN`. -/
def pdUniqueGo {α : Type} [DecidableEq α] (seen : List α) : List α → List α
  | [] => []
  | x :: xs => if x ∈ seen then pdUniqueGo seen xs else x :: pdUniqueGo (x :: seen) xs

/-- Distinct elements in first-encountered order, keeping the first copy of
each value. -/
def pdUnique {α : Type} [DecidableEq α] (l : List α) : List α := pdUniqueGo [] l

/-- Round-half-to-even on an exact value, the semantics of Python
`round` (the program only ever rounds to 2 decimals, see `rnd2`). -/
def bankersRound (y : ℚ) : ℤ :=
  if y - ⌊y⌋ < 1/2 then ⌊y⌋
  else if 1/2 < y - ⌊y⌋ then ⌊y⌋ + 1
  else if 2 ∣ ⌊y⌋ then ⌊y⌋ else ⌊y⌋ + 1

/-- Python `round(q, 2)`. -/
def rnd2 (q : ℚ) : ℚ := (bankersRound (q * 100) : ℚ) / 100

/-- Value a Python `float(s)` call produces: a finite number, a signed
infinity, or NaN. -/
inductive FloatLit where
  | fin (q : ℚ)
  | inf (neg : Bool)
  | nan
deriving DecidableEq

/-- Value under a leading minus sign (`float('-nan')` is still NaN). -/
def FloatLit.negate : FloatLit → FloatLit
  | .fin q => .fin (-q)
  | .inf neg => .inf (!neg)
  | .nan => .nan

/-- Digit run with PEP-515 underscores (single, strictly between digits):
accumulated value and digit count so far. -/
def digitsUGo : ℕ → ℕ → List Char → Option (ℕ × ℕ)
  | acc, k, [] => some (acc, k)
  | acc, k, c :: cs =>
      if c.isDigit then digitsUGo (acc * 10 + (c.toNat - 48)) (k + 1) cs
      else if c = '_' then
        match cs with
        | c2 :: cs2 =>
            if c2.isDigit then digitsUGo (acc * 10 + (c2.toNat - 48)) (k + 1) cs2
            else none
        | [] => none
      else none

/-- Nonempty digit run (with underscore separators): value and digit
count; `none` if empty, if a non-digit appears, or if an underscore is not
strictly between digits. -/
def digitsU (cs : List Char) : Option (ℕ × ℕ) :=
  match cs with
  | [] => none
  | c :: rest => if c.isDigit then digitsUGo (c.toNat - 48) 1 rest else none

/-- Unsigned decimal mantissa: `12`, `12.5`, `.5`, `12.`, with underscore
separators inside the digit runs. -/
def parseDecU (s : String) : Option ℚ :=
  match s.splitOn "." with
  | [intPart] => (digitsU intPart.data).map (fun v => (v.1 : ℚ))
  | [intPart, fracPart] =>
      if intPart.isEmpty && fracPart.isEmpty then none
      else if intPart.isEmpty then
        (digitsU fracPart.data).map (fun v => (v.1 : ℚ) / (10 : ℚ) ^ v.2)
      else if fracPart.isEmpty then
        (digitsU intPart.data).map (fun v => (v.1 : ℚ))
      else
        match digitsU intPart.data, digitsU fracPart.data with
        | some vi, some vf => some ((vi.1 : ℚ) + (vf.1 : ℚ) / (10 : ℚ) ^ vf.2)
        | _, _ => none
  | _ => none

/-- Signed integer exponent (underscore separators allowed). -/
def parseExpU (s : String) : Option ℤ :=
  if s.startsWith "-" then (digitsU (s.drop 1).data).map (fun v => -(v.1 : ℤ))
  else if s.startsWith "+" then (digitsU (s.drop 1).data).map (fun v => (v.1 : ℤ))
  else (digitsU s.data).map (fun v => (v.1 : ℤ))

/-- Split a float literal at its exponent marker. -/
def splitExp (s : String) : List String :=
  match s.splitOn "e" with
  | [_] => s.splitOn "E"
  | r => r

/-- Unsigned part of a Python float literal: the case-insensitive special
spellings `inf` / `infinity` / `nan`, or a decimal mantissa with optional
exponent. -/
def pyFloatCore (u : String) : Option FloatLit :=
  if u.toLower = "inf" || u.toLower = "infinity" then some (.inf false)
  else if u.toLower = "nan" then some .nan
  else
    match splitExp u with
    | [m] => (parseDecU m).map FloatLit.fin
    | [m, ex] =>
        match parseDecU m, parseExpU ex with
        | some q, some e => some (.fin (q * (10 : ℚ) ^ e))
        | _, _ => none
    | _ => none

/-- Modelled Python `float(s)`: surrounding whitespace is stripped, then an
optional sign is followed by `inf` / `infinity` / `nan` (any case) or a
decimal literal with optional fraction, exponent and PEP-515 underscore
separators.  The model is sound but conservative: whenever it returns
`some v`, `float(s)` succeeds with exactly that value; inputs outside this
grammar that CPython additionally accepts (non-ASCII decimal digits, exotic
unicode whitespace) fall to `none`, so theorems rely only on the success
direction. -/
def pyFloat (s : String) : Option FloatLit :=
  if s.trim.startsWith "-" then (pyFloatCore (s.trim.drop 1)).map FloatLit.negate
  else if s.trim.startsWith "+" then pyFloatCore (s.trim.drop 1)
  else pyFloatCore s.trim

/-! ### The filter condition language

`filter` hands the user's condition string to `df.query`.  The embedding
works with the abstract syntax of that restricted expression language
(comparisons, `and` / `or` / `not`, parentheses, column names and literals);
`Cond.toStr` recovers the surface text that the error messages interpolate. -/

/-- Comparison operators of the query language. -/
inductive CmpOp where
  | lt | le | gt | ge | eq | ne
deriving DecidableEq

/-- Literals of the query language. -/
inductive CLit where
  | num (q : ℚ)
  | str (s : String)
  | bool (b : Bool)
deriving DecidableEq

/-- Operands: column references or literals. -/
inductive CExpr where
  | col (name : String)
  | lit (v : CLit)
deriving DecidableEq

/-- Boolean filter conditions. -/
inductive Cond where
  | cmp (a : CExpr) (op : CmpOp) (b : CExpr)
  | andC (p q : Cond)
  | orC (p q : Cond)
  | notC (p : Cond)
deriving DecidableEq

/-- Surface text of a comparison operator. -/
def CmpOp.txt : CmpOp → String
  | .lt => "<"
  | .le => "<="
  | .gt => ">"
  | .ge => ">="
  | .eq => "=="
  | .ne => "!="

/-- Surface text of a literal. -/
def CLit.txt : CLit → String
  | .num q => if q.den = 1 then toString q.num else toString q.num ++ "/" ++ toString q.den
  | .str s => "\x27" ++ s ++ "\x27"
  | .bool b => if b then "True" else "False"

/-- Surface text of an operand. -/
def CExpr.txt : CExpr → String
  | .col n => n
  | .lit v => v.txt

/-- Surface text of a condition, i.e. the original condition string that the
error messages interpolate. -/
def Cond.toStr : Cond → String
  | .cmp a op b => a.txt ++ " " ++ op.txt ++ " " ++ b.txt
  | .andC p q => "(" ++ p.toStr ++ ") and (" ++ q.toStr ++ ")"
  | .orC p q => "(" ++ p.toStr ++ ") or (" ++ q.toStr ++ ")"
  | .notC p => "not (" ++ p.toStr ++ ")"

/-- Column names referenced by an operand. -/
def CExpr.refs : CExpr → List String
  | .col n => [n]
  | .lit _ => []

/-- Column names referenced by a condition, in left-to-right order — the
order in which the expression engine resolves names. -/
def Cond.refs : Cond → List String
  | .cmp a _ b => a.refs ++ b.refs
  | .andC p q => p.refs ++ q.refs
  | .orC p q => p.refs ++ q.refs
  | .notC p => p.refs

/-- Primitive value of one operand at one row. -/
inductive PVal where
  | pnum (x : PFloat)
  | pstr (s : Option String)
  | pbool (b : Bool)

/-- Numeric comparison on exact values. -/
def cmpQ : CmpOp → ℚ → ℚ → Bool
  | .lt, a, b => decide (a < b)
  | .le, a, b => decide (a ≤ b)
  | .gt, a, b => decide (b < a)
  | .ge, a, b => decide (b ≤ a)
  | .eq, a, b => decide (a = b)
  | .ne, a, b => decide (a ≠ b)

/-- IEEE comparison on float values: every comparison with NaN is false,
except `!=` which is true. -/
def pfCmp (op : CmpOp) : PFloat → PFloat → Bool
  | .num a, .num b => cmpQ op a b
  | _, _ => match op with | .ne => true | _ => false

/-- Lexicographic string comparison (numpy object comparison of two
strings). -/
def cmpStr : CmpOp → String → String → Bool
  | .lt, a, b => decide (a < b)
  | .le, a, b => a == b || decide (a < b)
  | .gt, a, b => decide (b < a)
  | .ge, a, b => a == b || decide (b < a)
  | .eq, a, b => a == b
  | .ne, a, b => a != b

/-- Modelled message of the `TypeError` numpy raises when an ordered
comparison mixes incompatible element types (the exact library wording is
engine-dependent; only its presence matters to the program, which wraps it
into an `Invalid filter condition` error). -/
def typeCmpErr : String := "Invalid comparison between incompatible dtypes"

/-- Comparison of two primitive values, mirroring the vectorised query
comparison on one row: floats compare numerically (bools counting as 0/1),
strings compare lexically, equality against a missing value is false
(`!=` true), and an ordered comparison across incompatible types raises. -/
def cmpPVal (op : CmpOp) : PVal → PVal → Except String Bool
  | .pnum a, .pnum b => .ok (pfCmp op a b)
  | .pnum a, .pbool b => .ok (pfCmp op a (.num (if b then 1 else 0)))
  | .pbool a, .pnum b => .ok (pfCmp op (.num (if a then 1 else 0)) b)
  | .pbool a, .pbool b =>
      .ok (cmpQ op (if a then 1 else 0) (if a = b then (if a then 1 else 0) else if b then 1 else 0))
  | .pstr (some a), .pstr (some b) => .ok (cmpStr op a b)
  | .pstr _, .pstr _ =>
      match op with
      | .eq => .ok false
      | .ne => .ok true
      | _ => .error typeCmpErr
  | _, _ =>
      match op with
      | .eq => .ok false
      | .ne => .ok true
      | _ => .error typeCmpErr

/-- Value of an operand at row `i`. -/
def evalOperand (df : DataFrame) (i : ℕ) : CExpr → Except String PVal
  | .col n =>
      match df.lookupCol n with
      | none => .error ("name \x27" ++ n ++ "\x27 is not defined")
      | some c =>
          match c.data with
          | .ints xs => .ok (.pnum (.num ((xs.getD i 0 : ℤ) : ℚ)))
          | .floats xs => .ok (.pnum (xs.getD i .nan))
          | .bools xs => .ok (.pbool (xs.getD i false))
          | .objs xs => .ok (.pstr (xs.getD i none))
  | .lit (.num q) => .ok (.pnum (.num q))
  | .lit (.str s) => .ok (.pstr (some s))
  | .lit (.bool b) => .ok (.pbool b)

/-- Truth value of a condition at row `i`; boolean connectives are the
bitwise `&`, `|`, `~` of the vectorised engine (no short-circuiting). -/
def evalCond (df : DataFrame) (i : ℕ) : Cond → Except String Bool
  | .cmp a op b => do
      let x ← evalOperand df i a
      let y ← evalOperand df i b
      cmpPVal op x y
  | .andC p q => do
      let x ← evalCond df i p
      let y ← evalCond df i q
      pure (x && y)
  | .orC p q => do
      let x ← evalCond df i p
      let y ← evalCond df i q
      pure (x || y)
  | .notC p => do
      let x ← evalCond df i p
      pure (!x)

/-- Indices (in order) of the given rows on which the condition holds. -/
def evalMask (df : DataFrame) (cond : Cond) : List ℕ → Except String (List ℕ)
  | [] => .ok []
  | i :: rest => do
      let b ← evalCond df i cond
      let tail ← evalMask df cond rest
      pure (if b then i :: tail else tail)

/-- Evaluation of `df.query(condition)`, returning the matching row indices.
Name resolution happens when the expression is compiled, before any row is
evaluated: a reference to a column absent from the schema raises
`name '...' is not defined` regardless of the data. -/
def evalQuery (df : DataFrame) (cond : Cond) : Except String (List ℕ) :=
  match cond.refs.find? (fun r => (df.lookupCol r).isNone) with
  | some bad => .error ("name \x27" ++ bad ++ "\x27 is not defined")
  | none => evalMask df cond (List.range df.nrows)

/-! ### Operation parameters and the individual reducers -/

/-- The keyword arguments `analyze` receives; `main` passes every flag, so
an omitted flag arrives as `None`.  `n` defaults to 10 both in `argparse`
and in `kwargs.get("n", 10)`. -/
structure Params where
  column : Option String := none
  column1 : Option String := none
  column2 : Option String := none
  columns : Option String := none
  n : Int := 10
  groupBy : Option String := none
  aggregate : Option String := none
  condition : Option Cond := none

/-- Parameter record with every field at its default. -/
def defaultParams : Params := {}

/-- Mean of a list of exact values. -/
def meanQ (l : List ℚ) : ℚ := l.sum / l.length

/-- Sample variance (`ddof = 1`), meaningful for lists of length ≥ 2. -/
def varQ (l : List ℚ) : ℚ :=
  ((l.map (fun x => (x - meanQ l) ^ 2)).sum) / ((l.length : ℚ) - 1)

/-- Whether a cell is a missing value. -/
def isNullCell : Cell → Bool
  | .cNone => true
  | .cFloat .nan => true
  | _ => false

/-- Serialisation of a converted float value. -/
def floatLitJ : FloatLit → JValue
  | .fin q => .jrat q
  | .inf neg => .jinf neg
  | .nan => .jnan

/-- The `sum` reducer on one column: `float(df[col].sum())`.  On a numeric
column this totals the non-null values (0 when there are none); on an
`object` column pandas concatenates the non-null strings and `float(...)`
then either converts the concatenation (possibly to a non-finite value) or
raises. -/
def sumOfCol (c : Column) : Except String JValue :=
  match c.data with
  | .objs cells =>
      match cells.filterMap id with
      | [] => .ok (.jrat 0)
      | nn =>
          match pyFloat (String.join nn) with
          | some v => .ok (floatLitJ v)
          | none =>
              .error ("could not convert string to float: \x27" ++ String.join nn ++ "\x27")
  | _ => .ok (.jrat c.numQs.sum)

/-- The `mean` reducer on one column: `float(df[col].mean())`.  On a numeric
column this is the mean of the non-null values, NaN when there are none; on
an `object` column with data pandas raises a `TypeError`. -/
def meanOfCol (c : Column) : Except String JValue :=
  match c.data with
  | .objs cells =>
      match cells.filterMap id with
      | [] => .ok .jnan
      | nn =>
          .error ("Could not convert string \x27" ++ String.join nn ++ "\x27 to numeric")
  | _ =>
      match c.numQs with
      | [] => .ok .jnan
      | l => .ok (.jrat (meanQ l))

/-- Shared frame for the single-column operations: `col = kwargs.get("column")`
followed by the `col not in df.columns` check. -/
def withColumn (df : DataFrame) (ps : Params)
    (k : Column → Except String JValue) : Except String JValue :=
  match ps.column with
  | none => .error (colNotFoundMsg "None" df)
  | some col =>
      match df.lookupCol col with
      | none => .error (colNotFoundMsg col df)
      | some c => k c

/-- `sum` operation. -/
def sumOp (df : DataFrame) (ps : Params) : Except String JValue :=
  withColumn df ps sumOfCol

/-- `mean` operation. -/
def meanOp (df : DataFrame) (ps : Params) : Except String JValue :=
  withColumn df ps meanOfCol

/-- Row index / value pairs of the non-null entries of a float series, in
row order. -/
def nonNanPairs (xs : List PFloat) : List (ℕ × ℚ) :=
  xs.enum.filterMap (fun p => match p.2 with | .num q => some (p.1, q) | .nan => none)

/-- Total preorder used by `nlargest` (`keep='first'`): larger value first,
ties by original row position. -/
def topLe (a b : ℕ × ℚ) : Bool :=
  decide (b.2 < a.2 ∨ (a.2 = b.2 ∧ a.1 ≤ b.1))

/-- Total preorder used by `nsmallest` (`keep='first'`): smaller value
first, ties by original row position. -/
def botLe (a b : ℕ × ℚ) : Bool :=
  decide (a.2 < b.2 ∨ (a.2 = b.2 ∧ a.1 ≤ b.1))

/-- The non-null rows of the column, stably sorted by value (the
`mergesort`-ordered `inds` of the selection algorithm). -/
def selectPairs (desc : Bool) (xs : List PFloat) : List (ℕ × ℚ) :=
  (nonNanPairs xs).mergeSort (if desc then topLe else botLe)

/-- Row indices whose value is missing, in original row order (the
`nan_index` of the selection algorithm). -/
def nanIdxs (xs : List PFloat) : List ℕ :=
  xs.enum.filterMap (fun p => match p.2 with | .nan => some p.1 | .num _ => none)

/-- Row indices returned by `nlargest` / `nsmallest` (`keep='first'`): the
stably sorted non-null rows first and then — since the fix for pandas issue
43060 — the rows whose value is missing pad the result, the whole
truncated to `n`.  Both library paths produce this list: for `n ≥ len` the
slow path sorts the whole column with missing values last, otherwise the
fast path takes `inds[:n]` of the stable sort and concatenates `nan_index`,
truncating at `n` rows. -/
def selectIdx (desc : Bool) (xs : List PFloat) (n : ℕ) : List ℕ :=
  ((((selectPairs desc xs).map Prod.fst).take n) ++ nanIdxs xs).take n

/-- Modelled message of the `TypeError` that `nlargest` / `nsmallest` raise
on a non-numeric column. -/
def nlargestErr (col dtype : String) (desc : Bool) : String :=
  "Column \x27" ++ col ++ "\x27 has dtype " ++ dtype ++ ", cannot use method \x27"
    ++ (if desc then "nlargest" else "nsmallest") ++ "\x27 with this dtype"

/-- `top_n` (`desc = true`) and `bottom_n` (`desc = false`):
`df.nlargest(n, col)` / `df.nsmallest(n, col)` serialised as records.  The
dtype validation admits every numeric dtype — bool included (pandas issue
26154) — and rejects `object`. -/
def topnOp (desc : Bool) (df : DataFrame) (ps : Params) : Except String JValue :=
  withColumn df ps (fun c =>
    match c.data with
    | .objs _ => .error (nlargestErr c.name "object" desc)
    | _ => .ok (.jarr ((selectIdx desc c.series ps.n.toNat).map df.recordJ)))

/-- `unique` operation: `df[col].unique().tolist()`, value list capped at
100 entries, plus the total distinct count. -/
def uniqueOp (df : DataFrame) (ps : Params) : Except String JValue :=
  withColumn df ps (fun c =>
    .ok (.jobj [
      ("unique_count", .jint (pdUnique c.cells).length),
      ("values", .jarr (((pdUnique c.cells).take 100).map cellJ))]))

/-- Subset argument of `duplicates`:
`kwargs.get("columns", "").split(",") if kwargs.get("columns") else None`
with each entry stripped. -/
def parseSubset : Option String → Option (List String)
  | none => none
  | some t => if t = "" then none else some ((t.splitOn ",").map String.trim)

/-- Row `i` restricted to the subset columns (all columns when `none`) —
the tuple on which `df.duplicated` compares rows. -/
def projRow (df : DataFrame) (sub : Option (List String)) (i : ℕ) : List Cell :=
  match sub with
  | none => df.cols.map (fun c => c.cellAt i)
  | some names =>
      names.map (fun nm =>
        match df.lookupCol nm with
        | some c => c.cellAt i
        | none => Cell.cNone)

/-- Indices of the rows marked by `df.duplicated(subset, keep=False)`:
every row whose projection occurs at least twice. -/
def dupIdx (df : DataFrame) (sub : Option (List String)) : List ℕ :=
  (List.range df.nrows).filter
    (fun i => 2 ≤ (List.range df.nrows).countP
      (fun j => decide (projRow df sub j = projRow df sub i)))

/-- `duplicates` payload. -/
def dupPayload (df : DataFrame) (sub : Option (List String)) : Except String JValue :=
  .ok (.jobj [
    ("duplicate_rows", .jint (dupIdx df sub).length),
    ("sample", .jarr (((dupIdx df sub).take 10).map df.recordJ))])

/-- `duplicates` operation, validating each subset column first. -/
def duplicatesOp (df : DataFrame) (ps : Params) : Except String JValue :=
  match parseSubset ps.columns with
  | some names =>
      match names.find? (fun nm => (df.lookupCol nm).isNone) with
      | some bad => .error (colNotFoundMsg bad df)
      | none => dupPayload df (some names)
  | none => dupPayload df none

/-- Paired non-null values of two float series: `Series.corr` drops every
row where either side is NaN. -/
def pairsOf (va vb : List PFloat) : List (ℚ × ℚ) :=
  (va.zip vb).filterMap (fun p =>
    match p with
    | (.num x, .num y) => some (x, y)
    | _ => none)

/-- Covariance (`ddof = 1`) of a list of pairs. -/
def covP (ps : List (ℚ × ℚ)) : ℚ :=
  ((ps.map (fun p =>
      (p.1 - meanQ (ps.map Prod.fst)) * (p.2 - meanQ (ps.map Prod.snd)))).sum)
    / ((ps.length : ℚ) - 1)

/-- Interpretation bucket computed from the exact correlation
`cov / sqrt D` with `D > 0`: the source compares the float correlation with
`0.7`, `-0.7`, `0.3`; since the square root is not rational the equivalent
squared comparisons are used (`cov / sqrt D > 7/10 ↔ cov > 0 ∧
49·D < 100·cov²`, and `|cov / sqrt D| < 3/10 ↔ 100·cov² < 9·D`), proved as
`corrGtBucket` and `corrAbsLtBucket` below. -/
def interpOf (cov D : ℚ) : String :=
  if 0 < cov ∧ 49 * D < 100 * cov ^ 2 then "strong positive"
  else if cov < 0 ∧ 49 * D < 100 * cov ^ 2 then "strong negative"
  else if 100 * cov ^ 2 < 9 * D then "weak"
  else "moderate"

/-- Correlation value and interpretation from the paired data.  With fewer
than two pairs, or a zero variance on either side, the float computation
yields NaN, and every comparison with NaN being false the interpretation
falls through to `"moderate"`. -/
def corrPairs (ps : List (ℚ × ℚ)) : JValue × String :=
  if ps.length < 2 then (.jnan, "moderate")
  else if varQ (ps.map Prod.fst) = 0 ∨ varQ (ps.map Prod.snd) = 0 then (.jnan, "moderate")
  else
    (.jdivSqrt (covP ps) (varQ (ps.map Prod.fst) * varQ (ps.map Prod.snd)),
     interpOf (covP ps) (varQ (ps.map Prod.fst) * varQ (ps.map Prod.snd)))

/-- `correlate` operation: `df[col1].corr(df[col2])` plus the bucketed
interpretation. -/
def correlateOp (df : DataFrame) (ps : Params) : Except String JValue :=
  match ps.column1, ps.column2 with
  | some a, some b =>
      match df.lookupCol a, df.lookupCol b with
      | some ca, some cb =>
          match ca.pfSeries, cb.pfSeries with
          | some va, some vb =>
              .ok (.jobj [
                ("correlation", (corrPairs (pairsOf va vb)).1),
                ("interpretation", .jstr (corrPairs (pairsOf va vb)).2)])
          | _, _ => .error "could not convert string to float"
      | _, _ => .error ("Columns not found. Available: " ++ availStr df)
  | _, _ => .error ("Columns not found. Available: " ++ availStr df)

/-- Linear-interpolation quantile of an ascending list (numpy default), for
`p ∈ [0,1]` and a nonempty list. -/
def quantileQ (sorted : List ℚ) (p : ℚ) : ℚ :=
  ((sorted.getD (⌊p * ((sorted.length : ℚ) - 1)⌋).toNat 0)
    + (p * ((sorted.length : ℚ) - 1) - (⌊p * ((sorted.length : ℚ) - 1)⌋ : ℚ))
      * ((sorted.getD ((⌊p * ((sorted.length : ℚ) - 1)⌋).toNat + 1)
            (sorted.getD (⌊p * ((sorted.length : ℚ) - 1)⌋).toNat 0))
         - (sorted.getD (⌊p * ((sorted.length : ℚ) - 1)⌋).toNat 0)))

/-- `Series.describe()` of a numeric column from its non-null values:
count, mean, std, min, quartiles, max; NaN statistics when the data is
empty and a NaN std for a single value (`ddof = 1`). -/
def describeNum (l : List ℚ) : JValue :=
  if l.length = 0 then
    .jobj [("count", .jrat 0), ("mean", .jnan), ("std", .jnan), ("min", .jnan),
           ("25%", .jnan), ("50%", .jnan), ("75%", .jnan), ("max", .jnan)]
  else
    .jobj [("count", .jrat l.length), ("mean", .jrat (meanQ l)),
           ("std", if l.length = 1 then .jnan else .jsqrt (varQ l)),
           ("min", .jrat ((l.mergeSort (fun a b => decide (a ≤ b))).getD 0 0)),
           ("25%", .jrat (quantileQ (l.mergeSort (fun a b => decide (a ≤ b))) (1/4))),
           ("50%", .jrat (quantileQ (l.mergeSort (fun a b => decide (a ≤ b))) (1/2))),
           ("75%", .jrat (quantileQ (l.mergeSort (fun a b => decide (a ≤ b))) (3/4))),
           ("max", .jrat ((l.mergeSort (fun a b => decide (a ≤ b))).getD (l.length - 1) 0))]

/-- Most frequent cell (first encountered on ties): `u` lists the candidate
values in first-encountered order, `l` the data. -/
def mostFreq (u : List Cell) (l : List Cell) : Cell × ℕ :=
  u.foldl (fun best c => if best.2 < l.count c then (c, l.count c) else best)
    (Cell.cNone, 0)

/-- `Series.describe()` of a non-numeric column: count, unique, top, freq
(NaN top/freq when every value is missing). -/
def describeObj (cells : List Cell) : JValue :=
  match cells.filter (fun c => !isNullCell c) with
  | [] => .jobj [("count", .jint 0), ("unique", .jint 0), ("top", .jnan), ("freq", .jnan)]
  | nn =>
      .jobj [("count", .jint nn.length), ("unique", .jint (pdUnique nn).length),
             ("top", cellJ (mostFreq (pdUnique nn) nn).1),
             ("freq", .jint (mostFreq (pdUnique nn) nn).2)]

/-- Whether `DataFrame.describe()` selects the column by default. -/
def Column.isNumericData (c : Column) : Bool :=
  match c.data with
  | .ints _ => true
  | .floats _ => true
  | _ => false

/-- `Series.describe()` of one column. -/
def describeCol (c : Column) : JValue :=
  match c.data with
  | .ints _ => describeNum c.numQs
  | .floats _ => describeNum c.numQs
  | _ => describeObj c.cells

/-- `stats` operation: describe one column when `column` is given, else
`df.describe()` (numeric columns when any exist, otherwise all). -/
def statsOp (df : DataFrame) (ps : Params) : Except String JValue :=
  match ps.column with
  | some col =>
      match df.lookupCol col with
      | none => .error (colNotFoundMsg col df)
      | some c => .ok (describeCol c)
  | none =>
      if df.cols.isEmpty then .error "Cannot describe a DataFrame without columns"
      else if (df.cols.filter (fun c => c.isNumericData)).isEmpty then
        .ok (.jobj (df.cols.map (fun c => (c.name, describeCol c))))
      else
        .ok (.jobj ((df.cols.filter (fun c => c.isNumericData)).map
          (fun c => (c.name, describeCol c))))

/-- Ordering used for group keys (`groupby(..., sort=True)`); group keys of
one frame are homogeneous, so the cross-constructor rank is never exercised
by real data. -/
def Cell.rank : Cell → ℕ
  | .cNone => 0
  | .cBool _ => 1
  | .cInt _ => 2
  | .cFloat _ => 3
  | .cStr _ => 4

/-- Total boolean order on float values (NaN last; group keys never contain
NaN, `groupby` drops them). -/
def PFloat.leB : PFloat → PFloat → Bool
  | .num a, .num b => decide (a ≤ b)
  | .num _, .nan => true
  | .nan, .num _ => false
  | .nan, .nan => true

/-- Total boolean order on cells. -/
def Cell.leB (a b : Cell) : Bool :=
  if a.rank = b.rank then
    match a, b with
    | .cInt x, .cInt y => decide (x ≤ y)
    | .cFloat x, .cFloat y => PFloat.leB x y
    | .cBool x, .cBool y => !x || y
    | .cStr x, .cStr y => x == y || decide (x < y)
    | _, _ => true
  else decide (a.rank ≤ b.rank)

/-- String form of a group key in the serialised mapping (non-string JSON
keys are stringified; the float spelling is modelled). -/
def keyStr : Cell → String
  | .cStr s => s
  | .cInt z => toString z
  | .cBool b => if b then "true" else "false"
  | .cFloat (.num q) => toString q.num ++ (if q.den = 1 then "" else "/" ++ toString q.den)
  | .cFloat .nan => "NaN"
  | .cNone => "null"

/-- Sorted distinct non-null keys of the grouping column. -/
def groupKeys (gc : Column) : List Cell :=
  (pdUnique (gc.cells.filter (fun c => !isNullCell c))).mergeSort Cell.leB

/-- Rows belonging to one group. -/
def groupRows (df : DataFrame) (gc : Column) (k : Cell) : List ℕ :=
  (List.range df.nrows).filter (fun i => decide (gc.cellAt i = k))

/-- Within-group sum of the aggregate column (`groupby(...)[agg].sum()`):
numeric values add with nulls skipped; an object column concatenates. -/
def aggValue (df : DataFrame) (gc ac : Column) (k : Cell) : JValue :=
  match ac.data with
  | .objs _ =>
      .jstr (String.join ((groupRows df gc k).filterMap (fun i =>
        match ac.cellAt i with | .cStr s => some s | _ => none)))
  | _ =>
      .jrat (((groupRows df gc k).filterMap (fun i =>
        match ac.cellAt i with
        | .cInt z => some ((z : ℚ))
        | .cFloat (.num q) => some q
        | .cBool b => some (if b then (1 : ℚ) else 0)
        | _ => none)).sum)

/-- `group_by` operation. -/
def groupByOp (df : DataFrame) (ps : Params) : Except String JValue :=
  match ps.groupBy with
  | none => .error ("Group column \x27None\x27 not found. Available: " ++ availStr df)
  | some g =>
      match df.lookupCol g with
      | none => .error ("Group column \x27" ++ g ++ "\x27 not found. Available: " ++ availStr df)
      | some gc =>
          match ps.aggregate with
          | none => .error ("Aggregate column \x27None\x27 not found. Available: " ++ availStr df)
          | some a =>
              match df.lookupCol a with
              | none =>
                  .error ("Aggregate column \x27" ++ a ++ "\x27 not found. Available: " ++ availStr df)
              | some ac =>
                  .ok (.jobj ((groupKeys gc).map (fun k => (keyStr k, aggValue df gc ac k))))

/-- Approximate per-column deep memory footprint in bytes.  The exact value
of `memory_usage(deep=True)` is a library implementation detail; the model
charges 8 bytes per numeric cell, 1 per bool, and object header plus length
per string.  Informational only — nothing downstream depends on it. -/
def ColData.memBytes : ColData → ℚ
  | .ints xs => 8 * xs.length
  | .floats xs => 8 * xs.length
  | .bools xs => xs.length
  | .objs xs =>
      xs.foldl (fun acc s => acc + match s with | some t => 49 + (t.length : ℚ) | none => 32) 0

/-- Approximate frame memory in bytes (columns plus the range index). -/
def DataFrame.memBytes (df : DataFrame) : ℚ :=
  132 + (df.cols.map (fun c => c.data.memBytes)).sum

/-- `info` operation. -/
def infoOp (df : DataFrame) : Except String JValue :=
  .ok (.jobj [
    ("shape", .jarr [.jint df.nrows, .jint df.cols.length]),
    ("memory_mb", .jrat (rnd2 (df.memBytes / 1024 / 1024))),
    ("null_counts", .jobj (df.cols.map (fun c => (c.name, .jint c.data.nullCount)))),
    ("sample", .jarr ((List.range (min 3 df.nrows)).map df.recordJ))])

/-- `filter` operation.  The inner `try` turns any failure — a missing
condition, a failed name resolution or comparison inside `df.query`, or the
`ZeroDivisionError` of the percentage on an empty frame — into an
`Invalid filter condition` error. -/
def filterOp (df : DataFrame) (ps : Params) : Except String JValue :=
  match ps.condition with
  | none => .error "Invalid filter condition: None. Error: expr must be a string"
  | some cond =>
      match evalQuery df cond with
      | .error e => .error ("Invalid filter condition: " ++ cond.toStr ++ ". Error: " ++ e)
      | .ok idxs =>
          if df.nrows = 0 then
            .error ("Invalid filter condition: " ++ cond.toStr ++ ". Error: division by zero")
          else
            .ok (.jobj [
              ("matching_rows", .jint idxs.length),
              ("total_rows", .jint df.nrows),
              ("percentage", .jrat (rnd2 ((idxs.length : ℚ) / (df.nrows : ℚ) * 100))),
              ("sample", .jarr ((idxs.take 5).map df.recordJ))])

/-! ### Dispatch, result assembly and exit code -/

/-- The returned Python dict, as the association list `json.dumps` walks. -/
abbrev Dict := List (String × JValue)

/-- Operation dispatch: the `elif` chain of `analyze`, with the outer
`try/except` and the per-branch `return {"error": ...}` both reflected as
the `Except` error channel. -/
def dispatch (df : DataFrame) (op : String) (ps : Params) : Except String JValue :=
  match op with
  | "info" => infoOp df
  | "top_n" => topnOp true df ps
  | "bottom_n" => topnOp false df ps
  | "sum" => sumOp df ps
  | "mean" => meanOp df ps
  | "stats" => statsOp df ps
  | "group_by" => groupByOp df ps
  | "filter" => filterOp df ps
  | "unique" => uniqueOp df ps
  | "duplicates" => duplicatesOp df ps
  | "correlate" => correlateOp df ps
  | _ =>
      .error ("Unknown operation: " ++ op ++
        ". Available: info, top_n, bottom_n, sum, mean, stats, group_by, filter, unique, duplicates, correlate")

/-- Result of `analyze` on a loaded frame: on any failure a fresh dict
holding only the error message; on success the metadata built at entry plus
the operation payload. -/
def analyzeDF (filepath : String) (df : DataFrame) (op : String) (ps : Params) : Dict :=
  match dispatch df op ps with
  | .error m => [("error", .jstr m)]
  | .ok payload =>
      [("file", .jstr filepath),
       ("rows", .jint df.nrows),
       ("columns", .jarr (df.cols.map (fun c => JValue.jstr c.name))),
       ("dtypes", .jobj (df.cols.map (fun c => (c.name, JValue.jstr c.data.dtypeLabel)))),
       ("operation", .jstr op),
       ("result", payload)]

/-- Full `analyze`: the loader (an external collaborator) either produces a
frame or a `File not found` / `Unsupported file type` error dict. -/
def analyze (filepath : String) (load : Except String DataFrame) (op : String)
    (ps : Params) : Dict :=
  match load with
  | .error m => [("error", .jstr m)]
  | .ok df => analyzeDF filepath df op ps

/-- Whether the result dict carries an `error` key. -/
def hasError (d : Dict) : Bool := (d.lookup "error").isSome

/-- Process exit code chosen by `main`: `sys.exit(1)` when an `error` key is
present, otherwise the interpreter exits with 0. -/
def exitCode (d : Dict) : ℕ := if hasError d then 1 else 0

/-- The `result` entry of a result dict. -/
def getResult (d : Dict) : Option JValue := d.lookup "result"

/-! ### Specification-side observations on outputs -/

mutual

/-- Whether a value contains a raw non-finite float. -/
def JValue.hasNonFinite : JValue → Bool
  | .jnan => true
  | .jinf _ => true
  | .jarr xs => hasNonFiniteList xs
  | .jobj fs => hasNonFiniteFields fs
  | _ => false

/-- Whether some element of a list contains a raw non-finite float. -/
def hasNonFiniteList : List JValue → Bool
  | [] => false
  | x :: xs => x.hasNonFinite || hasNonFiniteList xs

/-- Whether some field value contains a raw non-finite float. -/
def hasNonFiniteFields : List (String × JValue) → Bool
  | [] => false
  | p :: ps => p.2.hasNonFinite || hasNonFiniteFields ps

end

/-- Whether the serialised result dict contains a raw non-finite float
anywhere. -/
def dictHasNonFinite (d : Dict) : Bool := hasNonFiniteFields d

/-- Real value of the numeric output encodings (`none` for NaN and
non-numeric values): `jdivSqrt a b` is the float `a / sqrt b`, `jsqrt q`
the float `sqrt q`. -/
noncomputable def numDenote : JValue → Option ℝ
  | .jint z => some (z : ℝ)
  | .jrat q => some (q : ℝ)
  | .jsqrt q => some (Real.sqrt (q : ℝ))
  | .jdivSqrt a b => some ((a : ℝ) / Real.sqrt (b : ℝ))
  | _ => none

/-! ### Helper lemmas -/

theorem hasNonFiniteList_map_jstr {α : Type} (l : List α) (f : α → String) :
    hasNonFiniteList (l.map (fun c => JValue.jstr (f c))) = false := by
  induction l with
  | nil => rfl
  | cons a l ih => simp [hasNonFiniteList, JValue.hasNonFinite, ih]

theorem hasNonFiniteFields_map_jstr {α : Type} (l : List α) (k : α → String) (f : α → String) :
    hasNonFiniteFields (l.map (fun c => (k c, JValue.jstr (f c)))) = false := by
  induction l with
  | nil => rfl
  | cons a l ih => simp [hasNonFiniteFields, JValue.hasNonFinite, ih]

/-- The accumulator walk keeps a subsequence of the input. -/
theorem pdUniqueGo_sublist {α : Type} [DecidableEq α] :
    ∀ (l : List α) (seen : List α), (pdUniqueGo seen l).Sublist l := by
  intro l
  induction l with
  | nil => intro seen; exact List.Sublist.refl []
  | cons x xs ih =>
      intro seen
      rw [pdUniqueGo]
      by_cases hx : x ∈ seen
      · rw [if_pos hx]; exact (ih seen).trans (List.sublist_cons_self x xs)
      · rw [if_neg hx]; exact List.Sublist.cons₂ x (ih (x :: seen))

/-- Nothing already seen is emitted again. -/
theorem pdUniqueGo_not_mem_seen {α : Type} [DecidableEq α] {a : α} :
    ∀ {l seen : List α}, a ∈ pdUniqueGo seen l → a ∉ seen := by
  intro l
  induction l with
  | nil => intro seen h; rw [pdUniqueGo] at h; exact absurd h (List.not_mem_nil a)
  | cons x xs ih =>
      intro seen h
      rw [pdUniqueGo] at h
      by_cases hx : x ∈ seen
      · rw [if_pos hx] at h; exact ih h
      · rw [if_neg hx] at h
        rcases List.mem_cons.mp h with rfl | h
        · exact hx
        · intro ha
          exact absurd (List.mem_cons_of_mem x ha) (ih h)

/-- The accumulator walk emits no repeated elements. -/
theorem pdUniqueGo_nodup {α : Type} [DecidableEq α] :
    ∀ (l seen : List α), (pdUniqueGo seen l).Nodup := by
  intro l
  induction l with
  | nil => intro seen; rw [pdUniqueGo]; exact List.nodup_nil
  | cons x xs ih =>
      intro seen
      rw [pdUniqueGo]
      by_cases hx : x ∈ seen
      · rw [if_pos hx]; exact ih seen
      · rw [if_neg hx]
        refine List.nodup_cons.mpr ⟨fun hmem => ?_, ih (x :: seen)⟩
        exact absurd (List.mem_cons_self x seen) (pdUniqueGo_not_mem_seen hmem)

/-- Membership in `pdUnique`. -/
theorem mem_pdUnique {α : Type} [DecidableEq α] {a : α} {l : List α}
    (h : a ∈ pdUnique l) : a ∈ l :=
  (pdUniqueGo_sublist l []).subset h

/-- `pdUnique` keeps a subsequence of the input (first occurrences, in
order). -/
theorem pdUnique_sublist {α : Type} [DecidableEq α] (l : List α) :
    (pdUnique l).Sublist l :=
  pdUniqueGo_sublist l []

/-- `pdUnique` has no repeated elements. -/
theorem pdUnique_nodup {α : Type} [DecidableEq α] (l : List α) :
    (pdUnique l).Nodup :=
  pdUniqueGo_nodup l []

theorem pdUnique_length_le {α : Type} [DecidableEq α] (l : List α) :
    (pdUnique l).length ≤ l.length :=
  (pdUnique_sublist l).length_le

/-- A column of a well-formed frame has `nrows` cells. -/
theorem cells_length_of_wf {df : DataFrame} {col : String} {c : Column}
    (hwf : df.Wf) (hlk : df.lookupCol col = some c) :
    c.cells.length = df.nrows := by
  have hmem : c ∈ df.cols := List.mem_of_find?_eq_some hlk
  have hsz := hwf c hmem
  simp [Column.cells, hsz]

/-- If a list with no repeated elements has two or more elements satisfying
`p`, then any element satisfying `p` has a distinct companion that also
satisfies `p`. -/
theorem exists_second_of_two_le_countP {α : Type} [DecidableEq α] {l : List α}
    (hnd : l.Nodup) {p : α → Bool} {i : α}
    (h2 : 2 ≤ l.countP p) :
    ∃ j ∈ l, j ≠ i ∧ p j = true := by
  by_contra hno
  push_neg at hno
  have hsub : l.filter p ⊆ [i] := by
    intro x hx
    rcases List.mem_filter.mp hx with ⟨hxl, hxp⟩
    rcases eq_or_ne x i with h | h
    · simp [h]
    · exact absurd hxp (by simpa using hno x hxl h)
  have hlen : (l.filter p).length ≤ 1 := by
    have hsp : List.Subperm (l.filter p) [i] := List.subperm_of_subset (hnd.filter p) hsub
    exact le_trans hsp.length_le (by simp)
  have : l.countP p = (l.filter p).length := List.countP_eq_length_filter (p := p) l
  omega

/-- Lifting a dispatch failure to the final dict. -/
theorem analyzeDF_error {fp : String} {df : DataFrame} {op : String} {ps : Params} {m : String}
    (h : dispatch df op ps = .error m) :
    analyzeDF fp df op ps = [("error", .jstr m)] := by
  unfold analyzeDF; rw [h]

/-- Lifting a dispatch success to the final dict. -/
theorem analyzeDF_ok {fp : String} {df : DataFrame} {op : String} {ps : Params} {v : JValue}
    (h : dispatch df op ps = .ok v) :
    analyzeDF fp df op ps =
      [("file", .jstr fp),
       ("rows", .jint df.nrows),
       ("columns", .jarr (df.cols.map (fun c => JValue.jstr c.name))),
       ("dtypes", .jobj (df.cols.map (fun c => (c.name, JValue.jstr c.data.dtypeLabel)))),
       ("operation", .jstr op),
       ("result", v)] := by
  unfold analyzeDF; rw [h]

/-- A success dict carries no error key. -/
theorem hasError_of_ok {fp : String} {df : DataFrame} {op : String} {ps : Params} {v : JValue}
    (h : dispatch df op ps = .ok v) :
    hasError (analyzeDF fp df op ps) = false := by
  rw [analyzeDF_ok h]; rfl

/-- An error dict carries the error key. -/
theorem hasError_of_error {fp : String} {df : DataFrame} {op : String} {ps : Params} {m : String}
    (h : dispatch df op ps = .error m) :
    hasError (analyzeDF fp df op ps) = true := by
  rw [analyzeDF_error h]; rfl

/-- The result entry of a success dict is the payload. -/
theorem getResult_ok {fp : String} {df : DataFrame} {op : String} {ps : Params} {v : JValue}
    (h : dispatch df op ps = .ok v) :
    getResult (analyzeDF fp df op ps) = some v := by
  rw [analyzeDF_ok h]; rfl

/-! ### Claim C5 -/

/-- Claim C5: every invocation that fails — for any error in the taxonomy,
including an exception raised while a reducer executes, all of which the
embedding routes through the `Except` error channel of `dispatch` — returns
a dict carrying only the error message (no partial result, no success
metadata), and the process exit code is non-zero exactly when the dict
carries an `error` key. -/
theorem C5_error_results_exclusive_and_exit_code
    (filepath : String) (load : Except String DataFrame) (op : String) (ps : Params) :
    (hasError (analyze filepath load op ps) = true →
      ∃ m, analyze filepath load op ps = [("error", JValue.jstr m)]) ∧
    (exitCode (analyze filepath load op ps) ≠ 0 ↔
      hasError (analyze filepath load op ps) = true) := by
  have hex : ∀ d : Dict, exitCode d ≠ 0 ↔ hasError d = true := by
    intro d; unfold exitCode; by_cases h : hasError d <;> simp [h]
  refine ⟨?_, hex _⟩
  intro h
  cases load with
  | error m => exact ⟨m, rfl⟩
  | ok df =>
    have heq : analyze filepath (.ok df) op ps = analyzeDF filepath df op ps := rfl
    rw [heq] at h ⊢
    cases hd : dispatch df op ps with
    | error m => exact ⟨m, analyzeDF_error hd⟩
    | ok payload =>
      rw [hasError_of_ok hd] at h
      exact absurd h (by simp)

/-! ### Claim C10 -/

/-- Claim C10: on a table with zero rows the filter operation always
returns an error rather than a success with `matching_rows = 0`; when the
condition itself evaluates without error, the failure is the division
computing the matching percentage, reported as an invalid filter
condition. -/
theorem C10_filter_on_empty_table_errors (fp : String) (df : DataFrame) (ps : Params)
    (h0 : df.nrows = 0) :
    hasError (analyzeDF fp df "filter" ps) = true ∧
    (∀ cond idxs, ps.condition = some cond → evalQuery df cond = Except.ok idxs →
      analyzeDF fp df "filter" ps =
        [("error", JValue.jstr ("Invalid filter condition: " ++ cond.toStr ++
          ". Error: division by zero"))]) := by
  have hdisp : dispatch df "filter" ps = filterOp df ps := rfl
  constructor
  · cases hc : ps.condition with
    | none =>
        exact hasError_of_error (m := "Invalid filter condition: None. Error: expr must be a string")
          (by rw [hdisp]; simp only [filterOp, hc])
    | some cond =>
      cases hq : evalQuery df cond with
      | error e =>
          exact hasError_of_error
            (by rw [hdisp]; simp only [filterOp, hc, hq]; rfl)
      | ok idxs =>
          exact hasError_of_error
            (by rw [hdisp]; simp only [filterOp, hc, hq, if_pos h0]; rfl)
  · intro cond idxs hc hq
    exact analyzeDF_error (by rw [hdisp]; simp only [filterOp, hc, hq, if_pos h0])

/-! ### Concrete frames used by witnesses and counterexamples -/

/-- One int column, one row. -/
def dfOneInt : DataFrame := ⟨[⟨"a", .ints [1]⟩], 1⟩

/-- A column of ints with zero rows. -/
def dfEmpty : DataFrame := ⟨[⟨"a", .ints []⟩], 0⟩

/-- One float column whose only value is missing. -/
def dfNan : DataFrame := ⟨[⟨"x", .floats [.nan]⟩], 1⟩

/-- One string (`object`) column. -/
def dfStr : DataFrame := ⟨[⟨"s", .objs [some "a", some "b", some "a"]⟩], 3⟩

/-- The scenario frame of the specification: `[id, category, revenue]`. -/
def dfScen : DataFrame :=
  ⟨[⟨"id", .ints [1, 2, 3, 4, 5]⟩,
    ⟨"category", .objs [some "a", some "a", some "b", some "b", some "b"]⟩,
    ⟨"revenue", .ints [10, 20, 30, 40, 50]⟩], 5⟩

/-- The condition `zzz > 5` over a column that does not exist. -/
def condZ : Cond := .cmp (.col "zzz") .gt (.lit (.num 5))

/-! ### Claim C1 -/

/-- Claim C1 (amended): a filter whose condition references a column name
absent from the schema fails for the whole request before any row is
evaluated (the conclusion does not depend on the row data), but the failure
is reported as an invalid-filter-condition error wrapping the engine's
name-resolution message — not as the separate `Column ... not found`
(ColumnNotFound) validation error. -/
theorem C1_filter_unknown_column_reports_invalid_filter
    (fp : String) (df : DataFrame) (ps : Params) (cond : Cond) (bad : String)
    (hc : ps.condition = some cond)
    (hbad : cond.refs.find? (fun r => (df.lookupCol r).isNone) = some bad) :
    analyzeDF fp df "filter" ps =
      [("error", JValue.jstr ("Invalid filter condition: " ++ cond.toStr ++
        ". Error: " ++ ("name \x27" ++ bad ++ "\x27 is not defined")))] := by
  have hdisp : dispatch df "filter" ps = filterOp df ps := rfl
  have hq : evalQuery df cond = .error ("name \x27" ++ bad ++ "\x27 is not defined") := by
    simp only [evalQuery, hbad]
  exact analyzeDF_error (by rw [hdisp]; simp only [filterOp, hc, hq])

/-- Claim C1 counterexample: on a concrete table, filtering on `zzz > 5`
with `zzz` unknown yields the invalid-filter-condition error, which is not
the ColumnNotFound validation error the claim asserts. -/
theorem C1_counterexample :
    analyzeDF "data.csv" dfOneInt "filter" { condition := some condZ } =
      [("error", .jstr "Invalid filter condition: zzz > 5. Error: name \x27zzz\x27 is not defined")] ∧
    "Invalid filter condition: zzz > 5. Error: name \x27zzz\x27 is not defined" ≠
      colNotFoundMsg "zzz" dfOneInt := by
  refine ⟨rfl, ?_⟩
  decide

/-- Witness for C1 at a concrete input. -/
theorem C1_witness :
    analyzeDF "data.csv" dfOneInt "filter" { condition := some condZ } =
      [("error", JValue.jstr ("Invalid filter condition: " ++ condZ.toStr ++
        ". Error: " ++ ("name \x27" ++ "zzz" ++ "\x27 is not defined")))] :=
  C1_filter_unknown_column_reports_invalid_filter "data.csv" dfOneInt
    { condition := some condZ } condZ "zzz" rfl rfl

/-! ### Claim C2 -/

/-- Claim C2 (amended): no sentinel replacement is performed: a successful
`mean` on a numeric column with zero non-null values returns NaN, so a raw
non-finite floating value appears in the output of a successful
invocation. -/
theorem C2_mean_of_all_null_numeric_is_raw_nan
    (fp : String) (df : DataFrame) (ps : Params) (col : String) (c : Column)
    (hc : ps.column = some col) (hlk : df.lookupCol col = some c)
    (hnum : c.isNumericData = true) (hnil : c.numQs = []) :
    getResult (analyzeDF fp df "mean" ps) = some JValue.jnan ∧
    hasError (analyzeDF fp df "mean" ps) = false ∧
    dictHasNonFinite (analyzeDF fp df "mean" ps) = true := by
  have hmc : meanOfCol c = .ok .jnan := by
    cases hd : c.data with
    | objs cells => rw [Column.isNumericData, hd] at hnum; exact absurd hnum (by simp)
    | bools bs => rw [Column.isNumericData, hd] at hnum; exact absurd hnum (by simp)
    | ints xs => unfold meanOfCol; rw [hd, hnil]
    | floats xs => unfold meanOfCol; rw [hd, hnil]
  have hok : dispatch df "mean" ps = .ok .jnan := by
    show meanOp df ps = .ok .jnan
    simp only [meanOp, withColumn, hc, hlk, hmc]
  refine ⟨getResult_ok hok, hasError_of_ok hok, ?_⟩
  rw [analyzeDF_ok hok]
  simp [dictHasNonFinite, hasNonFiniteFields, JValue.hasNonFinite,
    hasNonFiniteList_map_jstr, hasNonFiniteFields_map_jstr]

/-- Claim C2 counterexample: a concrete successful invocation (mean of an
all-null float column) whose output contains a raw NaN. -/
theorem C2_counterexample :
    hasError (analyzeDF "data.csv" dfNan "mean" { column := some "x" }) = false ∧
    dictHasNonFinite (analyzeDF "data.csv" dfNan "mean" { column := some "x" }) = true :=
  ⟨rfl, rfl⟩

/-- Witness for C2 at a concrete input. -/
theorem C2_witness :
    getResult (analyzeDF "data.csv" dfNan "mean" { column := some "x" }) = some JValue.jnan ∧
    hasError (analyzeDF "data.csv" dfNan "mean" { column := some "x" }) = false ∧
    dictHasNonFinite (analyzeDF "data.csv" dfNan "mean" { column := some "x" }) = true :=
  C2_mean_of_all_null_numeric_is_raw_nan "data.csv" dfNan { column := some "x" } "x"
    ⟨"x", .floats [.nan]⟩ rfl rfl rfl rfl

/-! ### Claim C8 -/

/-- Claim C8: for every numeric column with at least one non-null value,
the mean result equals the sum result divided by the number of non-null
values, where the sum totals the column with nulls excluded. -/
theorem C8_mean_eq_sum_div_count
    (fp : String) (df : DataFrame) (ps : Params) (col : String) (c : Column)
    (hc : ps.column = some col) (hlk : df.lookupCol col = some c)
    (hnum : c.isNumericData = true) (hne : c.numQs ≠ []) :
    getResult (analyzeDF fp df "sum" ps) = some (.jrat c.numQs.sum) ∧
    getResult (analyzeDF fp df "mean" ps) =
      some (.jrat (c.numQs.sum / (c.numQs.length : ℚ))) := by
  constructor
  · have hsc : sumOfCol c = .ok (.jrat c.numQs.sum) := by
      cases hd : c.data with
      | objs cells => rw [Column.isNumericData, hd] at hnum; exact absurd hnum (by simp)
      | bools bs => rw [Column.isNumericData, hd] at hnum; exact absurd hnum (by simp)
      | ints xs => unfold sumOfCol; rw [hd]
      | floats xs => unfold sumOfCol; rw [hd]
    exact getResult_ok (by show sumOp df ps = _; simp only [sumOp, withColumn, hc, hlk, hsc])
  · have hmc : meanOfCol c = .ok (.jrat (c.numQs.sum / (c.numQs.length : ℚ))) := by
      cases he : c.numQs with
      | nil => exact absurd he hne
      | cons a as =>
        cases hd : c.data with
        | objs cells => rw [Column.isNumericData, hd] at hnum; exact absurd hnum (by simp)
        | bools bs => rw [Column.isNumericData, hd] at hnum; exact absurd hnum (by simp)
        | ints xs => unfold meanOfCol; rw [hd, he]; rfl
        | floats xs => unfold meanOfCol; rw [hd, he]; rfl
    exact getResult_ok (by show meanOp df ps = _; simp only [meanOp, withColumn, hc, hlk, hmc])

/-- Witness for C8 on the scenario frame (`sum(revenue) = 150`,
`mean(revenue) = 150 / 5`). -/
theorem C8_witness :
    getResult (analyzeDF "data.csv" dfScen "sum" { column := some "revenue" }) =
      some (.jrat 150) ∧
    getResult (analyzeDF "data.csv" dfScen "mean" { column := some "revenue" }) =
      some (.jrat (150 / (5 : ℚ))) := by
  have h := C8_mean_eq_sum_div_count "data.csv" dfScen { column := some "revenue" } "revenue"
    ⟨"revenue", .ints [10, 20, 30, 40, 50]⟩ rfl rfl rfl (by decide)
  refine ⟨h.1.trans ?_, h.2.trans ?_⟩
  · exact congrArg some (congrArg JValue.jrat (by
      simp [Column.numQs, Column.pfSeries, Column.series, nonNanQs]
      norm_num))
  · exact congrArg some (congrArg JValue.jrat (by
      simp [Column.numQs, Column.pfSeries, Column.series, nonNanQs]
      norm_num))

/-! ### Claim C3 -/

/-- Claim C3 (amended): on an existing String (`object`) column with at
least one non-null value, the numeric reducers `mean`, `top_n`, `bottom_n`
and `correlate` fail — with the generic caught-exception error of the
dispatcher, there is no typed TypeMismatch — while `sum` need not fail: it
returns a success result carrying `float(concatenation of the non-null
strings)` whenever that conversion succeeds (stated for the conversions the
sound `pyFloat` model recognises); `stats` returns a success result with
object-type descriptive statistics. -/
theorem C3_numeric_reducers_on_string_column
    (fp : String) (df : DataFrame) (ps : Params) (col : String) (c : Column)
    (cells : List (Option String))
    (hc : ps.column = some col) (hlk : df.lookupCol col = some c)
    (hdata : c.data = .objs cells) (hne : cells.filterMap id ≠ []) :
    hasError (analyzeDF fp df "mean" ps) = true ∧
    hasError (analyzeDF fp df "top_n" ps) = true ∧
    hasError (analyzeDF fp df "bottom_n" ps) = true ∧
    hasError (analyzeDF fp df "correlate"
      { column1 := some col, column2 := some col }) = true ∧
    (∀ v, pyFloat (String.join (cells.filterMap id)) = some v →
      getResult (analyzeDF fp df "sum" ps) = some (floatLitJ v)) ∧
    hasError (analyzeDF fp df "stats" ps) = false := by
  refine ⟨?_, ?_, ?_, ?_, ?_, ?_⟩
  · refine hasError_of_error (m := "Could not convert string \x27" ++
      String.join (cells.filterMap id) ++ "\x27 to numeric") ?_
    show meanOp df ps = _
    have hmc : meanOfCol c = .error ("Could not convert string \x27" ++
        String.join (cells.filterMap id) ++ "\x27 to numeric") := by
      cases hfm : cells.filterMap id with
      | nil => exact absurd hfm hne
      | cons a as => unfold meanOfCol; simp only [hdata, hfm]
    simp only [meanOp, withColumn, hc, hlk, hmc]
  · refine hasError_of_error (m := nlargestErr c.name "object" true) ?_
    show topnOp true df ps = _
    simp only [topnOp, withColumn, hc, hlk, hdata]
  · refine hasError_of_error (m := nlargestErr c.name "object" false) ?_
    show topnOp false df ps = _
    simp only [topnOp, withColumn, hc, hlk, hdata]
  · refine hasError_of_error (m := "could not convert string to float") ?_
    show correlateOp df { column1 := some col, column2 := some col } =
      Except.error "could not convert string to float"
    simp only [correlateOp, hlk, Column.pfSeries, hdata]
  · intro v hpf
    refine getResult_ok (v := floatLitJ v) ?_
    show sumOp df ps = _
    have hsc : sumOfCol c = .ok (floatLitJ v) := by
      cases hfm : cells.filterMap id with
      | nil => exact absurd hfm hne
      | cons a as =>
          unfold sumOfCol
          rw [hfm] at hpf
          simp only [hdata, hfm, hpf]
    simp only [sumOp, withColumn, hc, hlk, hsc]
  · refine hasError_of_ok (v := describeCol c) ?_
    show statsOp df ps = _
    simp only [statsOp, hc, hlk]

/-- Claim C3 counterexample: `stats` on a concrete String column returns a
success result (with object-type statistics) instead of the TypeMismatch
failure the claim asserts for every numeric reducer. -/
theorem C3_counterexample :
    hasError (analyzeDF "data.csv" dfStr "stats" { column := some "s" }) = false ∧
    getResult (analyzeDF "data.csv" dfStr "stats" { column := some "s" }) =
      some (.jobj [("count", .jint 3), ("unique", .jint 2),
                   ("top", .jstr "a"), ("freq", .jint 2)]) :=
  ⟨rfl, rfl⟩

/-- Witness for C3 at a concrete input. -/
theorem C3_witness :
    hasError (analyzeDF "data.csv" dfStr "mean" { column := some "s" }) = true ∧
    hasError (analyzeDF "data.csv" dfStr "top_n" { column := some "s" }) = true ∧
    hasError (analyzeDF "data.csv" dfStr "bottom_n" { column := some "s" }) = true ∧
    hasError (analyzeDF "data.csv" dfStr "correlate"
      { column1 := some "s", column2 := some "s" }) = true ∧
    (∀ v, pyFloat (String.join ([some "a", some "b", some "a"].filterMap id)) = some v →
      getResult (analyzeDF "data.csv" dfStr "sum" { column := some "s" }) =
        some (floatLitJ v)) ∧
    hasError (analyzeDF "data.csv" dfStr "stats" { column := some "s" }) = false :=
  C3_numeric_reducers_on_string_column "data.csv" dfStr { column := some "s" } "s"
    ⟨"s", .objs [some "a", some "b", some "a"]⟩ [some "a", some "b", some "a"]
    rfl rfl rfl (by decide)

/-- Witness for C10 at a concrete empty table. -/
theorem C10_witness :
    hasError (analyzeDF "data.csv" dfEmpty "filter"
      { condition := some (.cmp (.col "a") .gt (.lit (.num 5))) }) = true :=
  (C10_filter_on_empty_table_errors "data.csv" dfEmpty
    { condition := some (.cmp (.col "a") .gt (.lit (.num 5))) } rfl).1

/-! ### Claim C7 -/

/-- Partial inverse of `cellJ`. -/
def cellOfJ : JValue → Option Cell
  | .jint z => some (.cInt z)
  | .jrat q => some (.cFloat (.num q))
  | .jnan => some (.cFloat .nan)
  | .jbool b => some (.cBool b)
  | .jstr s => some (.cStr s)
  | .jnull => some .cNone
  | _ => none

theorem cellOfJ_cellJ : ∀ a : Cell, cellOfJ (cellJ a) = some a := by
  intro a
  cases a with
  | cFloat x => cases x <;> rfl
  | cInt z => rfl
  | cBool b => rfl
  | cStr s => rfl
  | cNone => rfl

theorem cellJ_injective : Function.Injective cellJ := by
  intro a b h
  have h2 := congrArg cellOfJ h
  rw [cellOfJ_cellJ, cellOfJ_cellJ] at h2
  exact Option.some.inj h2

/-- Claim C7: `unique` returns the distinct values of the column in
first-encountered row order (a subsequence of the serialised cells) with no
repeated elements, capped at 100 entries, while `unique_count` is the total
distinct count and satisfies `unique_count ≤ row_count`. -/
theorem C7_unique_distinct_capped
    (fp : String) (df : DataFrame) (ps : Params) (col : String) (c : Column)
    (hwf : df.Wf) (hc : ps.column = some col) (hlk : df.lookupCol col = some c) :
    getResult (analyzeDF fp df "unique" ps) =
      some (.jobj [("unique_count", .jint (pdUnique c.cells).length),
                   ("values", .jarr (((pdUnique c.cells).take 100).map cellJ))]) ∧
    (((pdUnique c.cells).take 100).map cellJ).Nodup ∧
    (((pdUnique c.cells).take 100).map cellJ).Sublist (c.cells.map cellJ) ∧
    (((pdUnique c.cells).take 100).map cellJ).length ≤ 100 ∧
    (pdUnique c.cells).length ≤ df.nrows := by
  refine ⟨?_, ?_, ?_, ?_, ?_⟩
  · exact getResult_ok (by
      show uniqueOp df ps = _
      simp only [uniqueOp, withColumn, hc, hlk])
  · exact ((pdUnique_nodup c.cells).sublist (List.take_sublist 100 _)).map cellJ_injective
  · exact ((List.take_sublist 100 _).trans (pdUnique_sublist c.cells)).map cellJ
  · rw [List.length_map]; exact List.length_take_le 100 _
  · exact le_of_le_of_eq (pdUnique_length_le c.cells) (cells_length_of_wf hwf hlk)

/-- Witness for C7 at a concrete input. -/
theorem C7_witness :
    getResult (analyzeDF "data.csv" dfStr "unique" { column := some "s" }) =
      some (.jobj [("unique_count",
          .jint (pdUnique (Column.cells ⟨"s", .objs [some "a", some "b", some "a"]⟩)).length),
        ("values", .jarr (((pdUnique
          (Column.cells ⟨"s", .objs [some "a", some "b", some "a"]⟩)).take 100).map cellJ))]) ∧
    (((pdUnique (Column.cells ⟨"s", .objs [some "a", some "b", some "a"]⟩)).take 100).map
      cellJ).Nodup ∧
    (((pdUnique (Column.cells ⟨"s", .objs [some "a", some "b", some "a"]⟩)).take 100).map
      cellJ).Sublist ((Column.cells ⟨"s", .objs [some "a", some "b", some "a"]⟩).map cellJ) ∧
    (((pdUnique (Column.cells ⟨"s", .objs [some "a", some "b", some "a"]⟩)).take 100).map
      cellJ).length ≤ 100 ∧
    (pdUnique (Column.cells ⟨"s", .objs [some "a", some "b", some "a"]⟩)).length ≤ dfStr.nrows :=
  C7_unique_distinct_capped "data.csv" dfStr { column := some "s" } "s"
    ⟨"s", .objs [some "a", some "b", some "a"]⟩ (by decide) rfl rfl

/-! ### Claim C6 -/

/-- Whether every column of the (parsed) subset exists in the frame. -/
def subsetOk (df : DataFrame) : Option (List String) → Bool
  | none => true
  | some names => names.all (fun nm => (df.lookupCol nm).isSome)

/-- Claim C6: `duplicates` reports every copy of each duplicated row — the
result is the total count of rows having a twin under equality on the
subset (all columns by default), together with the first 10 such rows as
samples — and every reported row index has a distinct row of the table
whose subset projection is identical. -/
theorem C6_duplicates_every_copy
    (fp : String) (df : DataFrame) (ps : Params)
    (hval : subsetOk df (parseSubset ps.columns) = true) :
    getResult (analyzeDF fp df "duplicates" ps) =
      some (.jobj [("duplicate_rows", .jint (dupIdx df (parseSubset ps.columns)).length),
                   ("sample",
                     .jarr (((dupIdx df (parseSubset ps.columns)).take 10).map df.recordJ))]) ∧
    ∀ i ∈ dupIdx df (parseSubset ps.columns), i < df.nrows ∧ ∃ j, j < df.nrows ∧ j ≠ i ∧
      projRow df (parseSubset ps.columns) j = projRow df (parseSubset ps.columns) i := by
  constructor
  · refine getResult_ok (by
      show duplicatesOp df ps = _
      cases hps : parseSubset ps.columns with
      | none => simp only [duplicatesOp, hps, dupPayload]
      | some names =>
          rw [hps] at hval
          have hfind : names.find? (fun nm => (df.lookupCol nm).isNone) = none := by
            rw [List.find?_eq_none]
            intro x hx
            have h3 := (List.all_eq_true.mp hval) x hx
            cases hcase : df.lookupCol x with
            | none => rw [hcase] at h3; exact absurd h3 (by simp)
            | some cc => simp [hcase]
          simp only [duplicatesOp, hps, hfind, dupPayload])
  · intro i hi
    rw [dupIdx, List.mem_filter] at hi
    rcases hi with ⟨hir, hcnt⟩
    have hcnt2 : 2 ≤ (List.range df.nrows).countP
        (fun j => decide (projRow df (parseSubset ps.columns) j =
          projRow df (parseSubset ps.columns) i)) := by
      exact of_decide_eq_true hcnt
    rcases exists_second_of_two_le_countP (List.nodup_range df.nrows) hcnt2 with
      ⟨j, hjr, hji, hpj⟩
    exact ⟨List.mem_range.mp hir, j, List.mem_range.mp hjr, hji, of_decide_eq_true hpj⟩

/-- A frame with a genuine duplicated row (rows 0 and 1 agree on the single
column). -/
def dfDup : DataFrame := ⟨[⟨"a", .ints [1, 1, 2]⟩], 3⟩

/-- Witness for C6 at a concrete input: `duplicates` with the default
subset (all columns) on a frame with a duplicated row. -/
theorem C6_witness :
    getResult (analyzeDF "data.csv" dfDup "duplicates" {}) =
      some (.jobj [("duplicate_rows", .jint (dupIdx dfDup (parseSubset none)).length),
        ("sample", .jarr (((dupIdx dfDup (parseSubset none)).take 10).map dfDup.recordJ))]) ∧
    ∀ i ∈ dupIdx dfDup (parseSubset none), i < dfDup.nrows ∧
      ∃ j, j < dfDup.nrows ∧ j ≠ i ∧
        projRow dfDup (parseSubset none) j = projRow dfDup (parseSubset none) i :=
  C6_duplicates_every_copy "data.csv" dfDup {} rfl

/-! ### Claim C4 -/

theorem pfSeries_of_numeric {c : Column} (h : c.isNumericData = true) :
    c.pfSeries = some c.series := by
  cases hd : c.data with
  | objs cells => rw [Column.isNumericData, hd] at h; exact absurd h (by simp)
  | ints xs => simp only [Column.pfSeries, hd]
  | floats xs => simp only [Column.pfSeries, hd]
  | bools bs => simp only [Column.pfSeries, hd]

/-- Swapping the two series swaps each retained pair (NaN-dropping is
symmetric). -/
theorem pairsOf_swap (va vb : List PFloat) :
    pairsOf vb va = (pairsOf va vb).map Prod.swap := by
  unfold pairsOf
  rw [← List.zip_swap va vb, List.filterMap_map, List.map_filterMap]
  congr 1
  funext p
  rcases p with ⟨x, y⟩
  cases x <;> cases y <;> rfl

/-- Pairing a series with itself retains exactly the diagonal over the
non-null values. -/
theorem pairsOf_self (va : List PFloat) :
    pairsOf va va = (nonNanQs va).map (fun q => (q, q)) := by
  induction va with
  | nil => rfl
  | cons x xs ih =>
      cases x with
      | num q => simpa [pairsOf, nonNanQs, List.zip_cons_cons, List.filterMap_cons] using ih
      | nan => simpa [pairsOf, nonNanQs, List.zip_cons_cons, List.filterMap_cons] using ih

/-- Correlation value and interpretation are invariant under swapping the
pair components. -/
theorem corrPairs_swap (l : List (ℚ × ℚ)) :
    corrPairs (l.map Prod.swap) = corrPairs l := by
  have hf : (l.map Prod.swap).map Prod.fst = l.map Prod.snd := by
    rw [List.map_map]; rfl
  have hs2 : (l.map Prod.swap).map Prod.snd = l.map Prod.fst := by
    rw [List.map_map]; rfl
  have hcov : covP (l.map Prod.swap) = covP l := by
    unfold covP
    rw [hf, hs2, List.length_map, List.map_map]
    congr 1
    refine congrArg List.sum (List.map_congr_left (fun p hp => ?_))
    show (p.2 - meanQ (l.map Prod.snd)) * (p.1 - meanQ (l.map Prod.fst)) = _
    ring
  unfold corrPairs
  rw [hf, hs2, List.length_map, hcov]
  by_cases h2 : l.length < 2
  · rw [if_pos h2, if_pos h2]
  · rw [if_neg h2, if_neg h2]
    by_cases hv : varQ (l.map Prod.fst) = 0 ∨ varQ (l.map Prod.snd) = 0
    · rw [if_pos hv.symm, if_pos hv]
    · rw [if_neg (fun hcon => hv hcon.symm), if_neg hv]
      rw [mul_comm (varQ (l.map Prod.snd)) (varQ (l.map Prod.fst))]

/-- Sample variance is nonnegative when defined. -/
theorem varQ_nonneg (l : List ℚ) (h2 : 2 ≤ l.length) : 0 ≤ varQ l := by
  unfold varQ
  apply div_nonneg
  · apply List.sum_nonneg
    intro x hx
    rcases List.mem_map.mp hx with ⟨y, hy, rfl⟩
    positivity
  · have h : (2 : ℚ) ≤ (l.length : ℚ) := by exact_mod_cast h2
    linarith

/-- Self-correlation on diagonal data with defined nonzero variance:
the stored value is `var / sqrt (var·var)` and the interpretation bucket is
"strong positive". -/
theorem corrPairs_diag (nn : List ℚ) (h2 : 2 ≤ nn.length) (hv : varQ nn ≠ 0) :
    corrPairs (nn.map (fun q => (q, q))) =
      (.jdivSqrt (varQ nn) (varQ nn * varQ nn), "strong positive") := by
  have hf : (nn.map (fun q => (q, q))).map Prod.fst = nn := by
    rw [List.map_map]; exact List.map_id nn
  have hs2 : (nn.map (fun q => (q, q))).map Prod.snd = nn := by
    rw [List.map_map]; exact List.map_id nn
  have hcov : covP (nn.map (fun q => (q, q))) = varQ nn := by
    unfold covP varQ
    rw [hf, hs2, List.length_map, List.map_map]
    congr 1
    refine congrArg List.sum (List.map_congr_left (fun q hq => ?_))
    show (q - meanQ nn) * (q - meanQ nn) = _
    ring
  have hvar : varQ ((nn.map (fun q => (q, q))).map Prod.fst) = varQ nn := by rw [hf]
  unfold corrPairs
  rw [hf, hs2, List.length_map, hcov]
  rw [if_neg (by omega : ¬ nn.length < 2)]
  rw [if_neg (by simp [hv] : ¬ (varQ nn = 0 ∨ varQ nn = 0))]
  have hpos : 0 < varQ nn := lt_of_le_of_ne (varQ_nonneg nn h2) (Ne.symm hv)
  rw [show interpOf (varQ nn) (varQ nn * varQ nn) = "strong positive" from by
    unfold interpOf
    rw [if_pos ⟨hpos, by nlinarith⟩]]

/-- The float `var / sqrt (var·var)` is exactly 1 for positive `var`. -/
theorem numDenote_divSqrt_self (v : ℚ) (h0 : 0 < v) :
    numDenote (.jdivSqrt v (v * v)) = some 1 := by
  have hv : (0 : ℝ) < (v : ℝ) := by exact_mod_cast h0
  show some (((v : ℚ) : ℝ) / Real.sqrt (((v * v : ℚ) : ℝ))) = some 1
  rw [show ((v * v : ℚ) : ℝ) = (v : ℝ) * (v : ℝ) from by push_cast; ring]
  rw [Real.sqrt_mul_self hv.le, div_self (ne_of_gt hv)]

/-- Claim C9: `correlate` is symmetric in its two numeric columns — the
returned dict is identical — and the self-correlation of a numeric column
whose sample variance is defined (at least two non-null values) and nonzero
has value 1.0 (the stored `var / sqrt (var·var)` denotes 1) with
interpretation "strong positive" under the bucketed thresholds. -/
theorem C9_correlate_symmetric_and_self_one
    (fp : String) (df : DataFrame) (a b : String) (ca cb : Column)
    (hA : df.lookupCol a = some ca) (hB : df.lookupCol b = some cb)
    (hnA : ca.isNumericData = true) (hnB : cb.isNumericData = true) :
    analyzeDF fp df "correlate" { column1 := some a, column2 := some b } =
      analyzeDF fp df "correlate" { column1 := some b, column2 := some a } ∧
    (2 ≤ (nonNanQs ca.series).length → varQ (nonNanQs ca.series) ≠ 0 →
      getResult (analyzeDF fp df "correlate" { column1 := some a, column2 := some a }) =
        some (.jobj [("correlation", .jdivSqrt (varQ (nonNanQs ca.series))
            (varQ (nonNanQs ca.series) * varQ (nonNanQs ca.series))),
          ("interpretation", .jstr "strong positive")]) ∧
      numDenote (.jdivSqrt (varQ (nonNanQs ca.series))
        (varQ (nonNanQs ca.series) * varQ (nonNanQs ca.series))) = some 1) := by
  constructor
  · have hcorr : corrPairs (pairsOf cb.series ca.series) =
        corrPairs (pairsOf ca.series cb.series) := by
      rw [pairsOf_swap, corrPairs_swap]
    have hab : dispatch df "correlate" { column1 := some a, column2 := some b } =
        .ok (.jobj [("correlation", (corrPairs (pairsOf ca.series cb.series)).1),
                    ("interpretation", .jstr (corrPairs (pairsOf ca.series cb.series)).2)]) := by
      show correlateOp df { column1 := some a, column2 := some b } = _
      simp only [correlateOp, hA, hB, pfSeries_of_numeric hnA, pfSeries_of_numeric hnB]
    have hba : dispatch df "correlate" { column1 := some b, column2 := some a } =
        .ok (.jobj [("correlation", (corrPairs (pairsOf ca.series cb.series)).1),
                    ("interpretation", .jstr (corrPairs (pairsOf ca.series cb.series)).2)]) := by
      show correlateOp df { column1 := some b, column2 := some a } = _
      simp only [correlateOp, hA, hB, pfSeries_of_numeric hnA, pfSeries_of_numeric hnB, hcorr]
    rw [analyzeDF_ok hab, analyzeDF_ok hba]
  · intro h2 hv
    have hdiag := corrPairs_diag (nonNanQs ca.series) h2 hv
    have haa : dispatch df "correlate" { column1 := some a, column2 := some a } =
        .ok (.jobj [("correlation", .jdivSqrt (varQ (nonNanQs ca.series))
            (varQ (nonNanQs ca.series) * varQ (nonNanQs ca.series))),
          ("interpretation", .jstr "strong positive")]) := by
      show correlateOp df { column1 := some a, column2 := some a } = _
      simp only [correlateOp, hA, pfSeries_of_numeric hnA, pairsOf_self, hdiag]
    refine ⟨getResult_ok haa, ?_⟩
    have hpos : 0 < varQ (nonNanQs ca.series) :=
      lt_of_le_of_ne (varQ_nonneg _ h2) (Ne.symm hv)
    exact numDenote_divSqrt_self _ hpos

/-- Frame with two numeric columns for the correlation witness. -/
def dfCorr : DataFrame :=
  ⟨[⟨"u", .ints [1, 2, 3]⟩, ⟨"w", .ints [2, 4, 6]⟩], 3⟩

/-- Witness for C9 at a concrete input, with the self-correlation
hypotheses discharged concretely. -/
theorem C9_witness :
    analyzeDF "data.csv" dfCorr "correlate" { column1 := some "u", column2 := some "w" } =
      analyzeDF "data.csv" dfCorr "correlate" { column1 := some "w", column2 := some "u" } ∧
    getResult (analyzeDF "data.csv" dfCorr "correlate"
        { column1 := some "u", column2 := some "u" }) =
      some (.jobj [("correlation",
          .jdivSqrt (varQ (nonNanQs (Column.series ⟨"u", .ints [1, 2, 3]⟩)))
            (varQ (nonNanQs (Column.series ⟨"u", .ints [1, 2, 3]⟩)) *
              varQ (nonNanQs (Column.series ⟨"u", .ints [1, 2, 3]⟩)))),
        ("interpretation", .jstr "strong positive")]) ∧
    numDenote (.jdivSqrt (varQ (nonNanQs (Column.series ⟨"u", .ints [1, 2, 3]⟩)))
        (varQ (nonNanQs (Column.series ⟨"u", .ints [1, 2, 3]⟩)) *
          varQ (nonNanQs (Column.series ⟨"u", .ints [1, 2, 3]⟩)))) = some 1 := by
  have h := C9_correlate_symmetric_and_self_one "data.csv" dfCorr "u" "w"
    ⟨"u", .ints [1, 2, 3]⟩ ⟨"w", .ints [2, 4, 6]⟩ rfl rfl rfl rfl
  have hq3 : nonNanQs (Column.series ⟨"u", .ints [1, 2, 3]⟩) = [(1 : ℚ), 2, 3] := rfl
  have hvar : varQ (nonNanQs (Column.series ⟨"u", .ints [1, 2, 3]⟩)) ≠ 0 := by
    rw [hq3]; norm_num [varQ, meanQ]
  have hlen : 2 ≤ (nonNanQs (Column.series ⟨"u", .ints [1, 2, 3]⟩)).length := by
    rw [hq3]; norm_num
  exact ⟨h.1, (h.2 hlen hvar).1, (h.2 hlen hvar).2⟩

/-- The squared comparison of `interpOf` is exactly the source's
`corr > 0.7` test: for `D > 0`,
`cov / sqrt D > 7/10 ↔ cov > 0 ∧ 49·D < 100·cov²`. -/
theorem corrGtBucket (cov D : ℚ) (hD : 0 < D) :
    ((7 / 10 : ℝ) < (cov : ℝ) / Real.sqrt (D : ℝ)) ↔ (0 < cov ∧ 49 * D < 100 * cov ^ 2) := by
  have hDr : (0 : ℝ) < (D : ℝ) := by exact_mod_cast hD
  have hs : (0 : ℝ) < Real.sqrt (D : ℝ) := Real.sqrt_pos.mpr hDr
  have hss : Real.sqrt (D : ℝ) ^ 2 = (D : ℝ) := Real.sq_sqrt hDr.le
  rw [lt_div_iff₀ hs]
  constructor
  · intro h
    have hcov : (0 : ℝ) < (cov : ℝ) :=
      lt_trans (by positivity) h
    constructor
    · exact_mod_cast hcov
    · have h2 : (49 : ℝ) * (D : ℝ) < 100 * (cov : ℝ) ^ 2 := by
        nlinarith [hss, hs]
      exact_mod_cast h2
  · rintro ⟨hcov, h49⟩
    have hcovr : (0 : ℝ) < (cov : ℝ) := by exact_mod_cast hcov
    have h49r : (49 : ℝ) * (D : ℝ) < 100 * (cov : ℝ) ^ 2 := by exact_mod_cast h49
    nlinarith [hss, hs, hcovr]

/-- The squared comparison of `interpOf` is exactly the source's
`abs(corr) < 0.3` test: for `D > 0`,
`|cov / sqrt D| < 3/10 ↔ 100·cov² < 9·D`. -/
theorem corrAbsLtBucket (cov D : ℚ) (hD : 0 < D) :
    |(cov : ℝ) / Real.sqrt (D : ℝ)| < 3 / 10 ↔ 100 * cov ^ 2 < 9 * D := by
  have hDr : (0 : ℝ) < (D : ℝ) := by exact_mod_cast hD
  have hs : (0 : ℝ) < Real.sqrt (D : ℝ) := Real.sqrt_pos.mpr hDr
  have hss : Real.sqrt (D : ℝ) ^ 2 = (D : ℝ) := Real.sq_sqrt hDr.le
  rw [abs_div, abs_of_pos hs, div_lt_iff₀ hs]
  constructor
  · intro h
    have h2 : (100 : ℝ) * (cov : ℝ) ^ 2 < 9 * (D : ℝ) := by
      nlinarith [hss, hs, abs_nonneg (cov : ℝ), sq_abs (cov : ℝ)]
    exact_mod_cast h2
  · intro h
    have h2 : (100 : ℝ) * (cov : ℝ) ^ 2 < 9 * (D : ℝ) := by exact_mod_cast h
    nlinarith [hss, hs, abs_nonneg (cov : ℝ), sq_abs (cov : ℝ)]

end DataAnalyzer
